import Mathlib

/-!
Verification development for the synergy-screen-monitor repository.

The Python sources embedded here:
  * waldo.py            — MQTTPublisher (connect/backoff state machine), process_logs
  * found-him.py        — MQTTSubscriber (on_message, connect_with_retry, monitor_connection)
  * mqtt_clients/paho_client.py    — PahoMQTTPublisher / PahoMQTTSubscriber
  * mqtt_clients/nanomq_client.py  — NanoMQTTPublisher / NanoMQTTSubscriber
  * mqtt_clients/factory.py        — MQTTClientFactory

Machine integers do not occur: delays and counters are small Python ints,
modelled as Nat. Fallible operations are modelled with Except / Option.
Wall-clock time is passed in explicitly where a claim needs it.
-/

/-- A decoded JSON value, as produced by json.loads. -/
inductive JsonVal where
  | str (s : String)
  | num (n : Int)
  | boolean (b : Bool)
  | null
  | arr (xs : List JsonVal)
  | obj (fields : List (String × JsonVal))

/-- Dictionary lookup on a decoded JSON object.  json.loads returns a dict,
so keys are unique; the association list represents that dict and the first
match is the binding. -/
def lookupKey : List (String × JsonVal) → String → Option JsonVal
  | [], _ => none
  | (k, v) :: rest, key => if k = key then some v else lookupKey rest key

/-- Python equality between a decoded JSON value and a Python str
(the comparison payload[self.key] == self.value, where self.value is a str):
only a JSON string can compare equal to a str. -/
def pyEqStr : JsonVal → String → Bool
  | .str s, v => s == v
  | _, _ => false

/-- The Python exceptions the message handler can raise or catch. -/
inductive PyExc where
  | nameError
  | jsonDecodeError
deriving DecidableEq

/-- Observable outcome of one call of the on_message handler:
how many times the alert (bell) callback was invoked, and which exception,
if any, escaped to the caller. -/
structure HandlerOutcome where
  bellCalls : Nat
  raised : Option PyExc
deriving DecidableEq

/-- Module-level names imported by found-him.py (lines 1-10). -/
def foundHimImports : List String :=
  ["mqtt", "json", "sys", "argparse", "os", "platform", "subprocess",
   "time", "logging", "datetime"]

/-- Module-level names imported by mqtt_clients/paho_client.py (lines 8-15).
Note that json is absent. -/
def pahoClientImports : List String :=
  ["sys", "os", "time", "logging", "platform", "subprocess", "mqtt",
   "MQTTPublisherInterface", "MQTTSubscriberInterface"]

/-- Module-level names imported by mqtt_clients/nanomq_client.py (lines 9-15). -/
def nanomqClientImports : List String :=
  ["json", "os", "time", "logging", "threading", "Optional", "Callable",
   "MQTTPublisherInterface", "MQTTSubscriberInterface"]

/-- Whether the global name json resolves in a module. -/
def jsonInScope (imports : List String) : Bool := imports.contains "json"

/-- The body shared verbatim by MQTTSubscriber.on_message (found-him.py 135-164),
PahoMQTTSubscriber.on_message (paho_client.py 271-301) and
NanoMQTTSubscriber._on_message (nanomq_client.py 225-250), parametrised by
whether the module-level name json resolves.

The input parsed is the result of JSON-decoding the payload: some fields for a
payload that decodes to a JSON object (the only decoded shape these claims
concern; the wire payload of this system is always an object), none for a
payload that does not decode.  hasBellFunc tells whether self.bell_func is set.
The update of self.last_message_time (wall clock) happens before the try block
on every call and is independent of the outcome, so it is elided here.

Control flow mirrored from the source:
  * evaluating json.loads with json unresolved raises NameError; the first
    except clause, except json.JSONDecodeError, evaluates json again and the
    resulting NameError escapes the handler uncaught;
  * with json in scope, a decode failure raises json.JSONDecodeError which the
    first except clause catches (debug log only);
  * with a decoded object, the bell fires exactly when self.key is in the dict
    and maps to a value Python-equal to self.value, and only if bell_func is
    set; no exception is raised on this path. -/
def on_message_body (jsonAvail : Bool) (key value : String) (hasBellFunc : Bool)
    (parsed : Option (List (String × JsonVal))) : HandlerOutcome :=
  if jsonAvail = false then
    { bellCalls := 0, raised := some PyExc.nameError }
  else
    match parsed with
    | none => { bellCalls := 0, raised := none }
    | some payload =>
      match lookupKey payload key with
      | some v =>
        if pyEqStr v value then
          { bellCalls := if hasBellFunc then 1 else 0, raised := none }
        else
          { bellCalls := 0, raised := none }
      | none => { bellCalls := 0, raised := none }

/-- MQTTSubscriber.on_message of found-him.py. -/
def foundHimOnMessage (key value : String) (hasBellFunc : Bool)
    (parsed : Option (List (String × JsonVal))) : HandlerOutcome :=
  on_message_body (jsonInScope foundHimImports) key value hasBellFunc parsed

/-- PahoMQTTSubscriber.on_message of mqtt_clients/paho_client.py. -/
def pahoOnMessage (key value : String) (hasBellFunc : Bool)
    (parsed : Option (List (String × JsonVal))) : HandlerOutcome :=
  on_message_body (jsonInScope pahoClientImports) key value hasBellFunc parsed

/-- NanoMQTTSubscriber._on_message of mqtt_clients/nanomq_client.py. -/
def nanomqOnMessage (key value : String) (hasBellFunc : Bool)
    (parsed : Option (List (String × JsonVal))) : HandlerOutcome :=
  on_message_body (jsonInScope nanomqClientImports) key value hasBellFunc parsed

/-- Publisher state, as set up by MQTTPublisher.__init__ (waldo.py 53-68) and
identically by PahoMQTTPublisher.__init__ (paho_client.py 37-52): the fields
touched by the connection lifecycle.  The subscriber classes carry the same
three connection fields with the same initial values. -/
structure MQTTPublisher where
  broker_address : String
  port : Nat
  topic : String
  connected : Bool
  reconnect_delay : Nat
  max_reconnect_delay : Nat
deriving DecidableEq

/-- MQTTPublisher.__init__ (waldo.py 53-68): connected = False,
reconnect_delay = 1, max_reconnect_delay = 60 (the client handle starts
as None and is not part of the pure state). -/
def initPublisher (broker_address : String) (port : Nat) (topic : String) :
    MQTTPublisher :=
  { broker_address := broker_address, port := port, topic := topic,
    connected := false, reconnect_delay := 1, max_reconnect_delay := 60 }

/-- MQTTPublisher.on_connect (waldo.py 70-86): on reason_code 0 set
connected and reset the delay to 1; otherwise clear connected. -/
def on_connect (s : MQTTPublisher) (reason_code : Nat) : MQTTPublisher :=
  if reason_code = 0 then
    { s with connected := true, reconnect_delay := 1 }
  else
    { s with connected := false }

/-- MQTTPublisher.on_disconnect (waldo.py 87-98). -/
def on_disconnect (s : MQTTPublisher) : MQTTPublisher :=
  { s with connected := false }

/-- One failed attempt inside connect_with_retry (waldo.py 127-139): the
except branch sleeps for reconnect_delay seconds and then advances
reconnect_delay to min(reconnect_delay * 2, max_reconnect_delay).  Returns the
slept duration together with the new state.  found-him.py 224-237 and
paho_client.py 119-131 perform the same sleep-then-double sequence. -/
def failedAttempt (s : MQTTPublisher) : Nat × MQTTPublisher :=
  (s.reconnect_delay,
   { s with reconnect_delay := min (s.reconnect_delay * 2) s.max_reconnect_delay })

/-- State after n consecutive failed connection attempts from s. -/
def stateAfterFailures (s : MQTTPublisher) : Nat → MQTTPublisher
  | 0 => s
  | n + 1 => (failedAttempt (stateAfterFailures s n)).2

/-- The connect_with_retry loop of waldo.py 100-139 (textually identical in
paho_client.py 84-131; found-him.py 179-237 adds callbacks but has the same
control flow).  ack i tells whether the i-th attempt receives CONNACK with
reason code 0 inside the 10-second poll window; a successful ack runs the
on_connect callback and the method returns True.  A failed attempt raises,
sleeps, doubles the delay and loops.  The while guard is re-checked first, so
a call made while already connected falls through the loop body and hits the
implicit Python return None.  fuel bounds how many loop iterations we unroll
(the real loop may run forever); the outer Option is none when fuel runs out,
some (ret, s2) when the call returns, where ret models the Python return value
(none is Python None, some true is True). -/
def connect_with_retry (ack : Nat → Bool) :
    Nat → Nat → MQTTPublisher → Option (Option Bool × MQTTPublisher)
  | 0, _, s => if s.connected then some (none, s) else none
  | fuel + 1, i, s =>
    if s.connected then
      some (none, s)
    else if ack i then
      some (some true, on_connect s 0)
    else
      connect_with_retry ack fuel (i + 1) (failedAttempt s).2

/-- Result of the per-event publish retry loop of process_logs
(waldo.py 208-222): how many publish attempts were made, the list of
inter-attempt waits actually slept (in seconds, in order), and the final
published flag. -/
structure PublishLoopResult where
  attempts : Nat
  waits : List Nat
  published : Bool
deriving DecidableEq

/-- The while loop of waldo.py 213-222, with outcome i the result of the
i-th publisher.publish call (i counts from 0; the loop enters attempt i with
retry_count = i because retry_count increments exactly on failure).  On
failure the loop increments retry_count and, only while retry_count is still
below max_retries, sleeps 2 ** retry_count seconds.  fuel bounds the
unrolling; max_retries + 1 covers every possible iteration. -/
def publishRetryGo (outcome : Nat → Bool) (max_retries : Nat) :
    Nat → Nat → PublishLoopResult
  | 0, _ => { attempts := 0, waits := [], published := false }
  | fuel + 1, retry_count =>
    if retry_count < max_retries then
      if outcome retry_count then
        { attempts := 1, waits := [], published := true }
      else
        let rest := publishRetryGo outcome max_retries fuel (retry_count + 1)
        if retry_count + 1 < max_retries then
          { attempts := rest.attempts + 1,
            waits := 2 ^ (retry_count + 1) :: rest.waits,
            published := rest.published }
        else
          { attempts := rest.attempts + 1, waits := rest.waits,
            published := rest.published }
    else
      { attempts := 0, waits := [], published := false }

/-- The full retry ladder for one event (waldo.py 208-222):
retry_count starts at 0, max_retries = 3. -/
def publishRetryLoop (outcome : Nat → Bool) : PublishLoopResult :=
  publishRetryGo outcome 3 4 0

/-- The capture group of the regular expression to quote-open followed by
one-or-more non-hyphen characters: the maximal run of characters up to the
first hyphen (greedy, nothing follows the group in the pattern). -/
def takeGroup : List Char → List Char
  | [] => []
  | c :: cs => if c = '-' then [] else c :: takeGroup cs

/-- Whether the four-character literal marker (t, o, space, double-quote)
is at the head of the character list. -/
def markerHere : List Char → Bool
  | 't' :: 'o' :: ' ' :: '"' :: _ => true
  | _ => false

/-- Attempt to match the pattern at the head of the character list: the
literal marker t, o, space, double-quote, then a nonempty group of non-hyphen
characters (the group is the text after the marker, which has length 4). -/
def markerMatchAt (l : List Char) : Option (List Char) :=
  if markerHere l then
    let g := takeGroup (l.drop 4)
    if g = [] then none else some g
  else none

/-- re.search over the line (waldo.py 199): try the pattern at each position
from the left and return the first full match. -/
def reSearchToName : List Char → Option (List Char)
  | [] => none
  | c :: cs =>
    match markerMatchAt (c :: cs) with
    | some g => some g
    | none => reSearchToName cs

/-- Whether the line contains the marker at any position. -/
def hasMarker : List Char → Bool
  | [] => false
  | c :: cs => markerHere (c :: cs) || hasMarker cs

/-- A detected desktop switch event.  The timestamp field of the published
message is datetime.now() (wall clock, outside the pure model); the extraction
contract concerns the desktop name. -/
structure SwitchEvent where
  current_desktop : String
deriving DecidableEq

/-- The per-line event extraction of process_logs (waldo.py 197-206):
re.search for the marker pattern; on a match, group(1) becomes the desktop
name of the event; otherwise the line yields no event. -/
def extractEvent (line : String) : Option SwitchEvent :=
  match reSearchToName line.toList with
  | some g => some { current_desktop := String.mk g }
  | none => none

/-- One iteration body of the supervision loop in NanoMQTTSubscriber.run
(nanomq_client.py 316-325): reconnection is forced exactly when the elapsed
wall-clock time since last_message_time exceeds 120 seconds and
client.is_connected() reports false.  Returns whether connect_with_retry is
invoked in that iteration; the iteration ends with a 10-second sleep. -/
def nanomqSupervisionStep (now last_message_time : Nat)
    (backendConnected : Bool) : Bool :=
  if 120 < now - last_message_time then
    if backendConnected = false then true else false
  else
    false

/-- One iteration body of monitor_connection (found-him.py 239-257 and
paho_client.py 378-396): reconnection is forced exactly when the connected
flag (maintained by the backend connect and disconnect callbacks) is false;
the iteration ends with a 10-second sleep. -/
def monitorConnectionStep (connected : Bool) : Bool :=
  if connected = false then true else false

/-- MQTTClientFactory.SUPPORTED_CLIENTS (factory.py 25). -/
def SUPPORTED_CLIENTS : List String := ["paho"]

/-- MQTTClientFactory.DEFAULT_CLIENT (factory.py 26). -/
def DEFAULT_CLIENT : String := "paho"

/-- Observable side effects of a factory call: construction of a concrete
backend object, or a connection attempt (the factory never performs the
latter; constructors set connected = False and open no socket). -/
inductive FactoryEffect where
  | backendConstructed (which : String)
  | connectionAttempted
deriving DecidableEq

/-- MQTTClientFactory.create_publisher (factory.py 28-54): reject a
client_type outside SUPPORTED_CLIENTS with a ValueError before anything is
constructed; for paho, construct a PahoMQTTPublisher (its __init__ sets
connected = False, reconnect_delay = 1, max_reconnect_delay = 60 and opens no
connection).  The result pairs the Python outcome (Except models
raise-versus-return) with the list of effects performed. -/
def create_publisher (client_type broker_address : String) (port : Nat)
    (topic : String) : Except String MQTTPublisher × List FactoryEffect :=
  if SUPPORTED_CLIENTS.contains client_type = false then
    (Except.error ("Unsupported client type: " ++ client_type), [])
  else if client_type = "paho" then
    (Except.ok (initPublisher broker_address port topic),
     [FactoryEffect.backendConstructed "paho"])
  else
    (Except.error ("Unknown client type: " ++ client_type), [])

/-- Subscriber state set up by PahoMQTTSubscriber.__init__
(paho_client.py 195-217): connection fields as for the publisher, plus the
match rule.  last_message_time is the wall clock at construction. -/
structure MQTTSubscriber where
  broker : String
  port : Nat
  topic : String
  key : String
  value : String
  hasBellFunc : Bool
  connected : Bool
  reconnect_delay : Nat
  max_reconnect_delay : Nat
deriving DecidableEq

/-- PahoMQTTSubscriber.__init__ (paho_client.py 195-217). -/
def initSubscriber (broker : String) (port : Nat)
    (topic key value : String) (hasBellFunc : Bool) : MQTTSubscriber :=
  { broker := broker, port := port, topic := topic, key := key,
    value := value, hasBellFunc := hasBellFunc, connected := false,
    reconnect_delay := 1, max_reconnect_delay := 60 }

/-- MQTTClientFactory.create_subscriber (factory.py 56-86): same validation
as create_publisher, then constructs a PahoMQTTSubscriber. -/
def create_subscriber (client_type broker : String) (port : Nat)
    (topic key value : String) (hasBellFunc : Bool) :
    Except String MQTTSubscriber × List FactoryEffect :=
  if SUPPORTED_CLIENTS.contains client_type = false then
    (Except.error ("Unsupported client type: " ++ client_type), [])
  else if client_type = "paho" then
    (Except.ok (initSubscriber broker port topic key value hasBellFunc),
     [FactoryEffect.backendConstructed "paho"])
  else
    (Except.error ("Unknown client type: " ++ client_type), [])

/-- NanoMQTTPublisher.__init__ (nanomq_client.py 45-69): raises RuntimeError
when the NanoMQ bindings are not importable, otherwise constructs the
publisher with connected = False, reconnect_delay = 1,
max_reconnect_delay = 60.  The class exists in the codebase but is not
registered in the factory. -/
def nanomqPublisherInit (nanomqAvailable : Bool) (broker_address : String)
    (port : Nat) (topic : String) : Except String MQTTPublisher :=
  if nanomqAvailable = false then
    Except.error "NanoMQ bindings are not available."
  else
    Except.ok (initPublisher broker_address port topic)

/-- A tiny heap of Python list objects, for the aliasing behaviour of
MQTTClientFactory.get_supported_clients (factory.py 88-96): cell 0 holds the
class attribute SUPPORTED_CLIENTS; list.copy() allocates a fresh cell. -/
structure PyListStore where
  cells : List (List String)
deriving DecidableEq

/-- Read the list object at an address. -/
def listAt (st : PyListStore) (addr : Nat) : List String :=
  (st.cells.get? addr).getD []

/-- Allocate a fresh list object holding v; returns the new store and the
fresh address. -/
def allocList (st : PyListStore) (v : List String) : PyListStore × Nat :=
  ({ cells := st.cells ++ [v] }, st.cells.length)

/-- In-place mutation of the list object at an address (any Python list
mutation rebinds only that cell). -/
def setList (st : PyListStore) (addr : Nat) (v : List String) : PyListStore :=
  { cells := st.cells.set addr v }

/-- The heap as it stands once factory.py is loaded: cell 0 is
SUPPORTED_CLIENTS. -/
def factoryInitStore : PyListStore := { cells := [SUPPORTED_CLIENTS] }

/-- The address of the class attribute SUPPORTED_CLIENTS. -/
def supportedAddr : Nat := 0

/-- MQTTClientFactory.get_supported_clients (factory.py 88-96): returns
SUPPORTED_CLIENTS.copy(), a freshly allocated list with the same elements. -/
def get_supported_clients (st : PyListStore) : PyListStore × Nat :=
  allocList st (listAt st supportedAddr)

/-- Connection-lifecycle events that touch the publisher backoff state:
a CONNACK callback with its reason code, a disconnect callback, or a failed
attempt of the connect_with_retry loop (waldo.py 127-139). -/
inductive ConnEvent where
  | connAck (reason_code : Nat)
  | disconn
  | attemptFailed

/-- Apply one connection-lifecycle event to the publisher state. -/
def stepConn (s : MQTTPublisher) : ConnEvent → MQTTPublisher
  | ConnEvent.connAck rc => on_connect s rc
  | ConnEvent.disconn => on_disconnect s
  | ConnEvent.attemptFailed => (failedAttempt s).2

/-- Run a sequence of connection-lifecycle events from a state. -/
def runConnEvents (s : MQTTPublisher) (evs : List ConnEvent) : MQTTPublisher :=
  evs.foldl stepConn s

/-- The backoff invariant on the publisher state: the delay stays in the
closed interval from the initial value 1 to the maximum 60, and the maximum
itself is the constant 60 set at construction. -/
def DelayInv (s : MQTTPublisher) : Prop :=
  1 ≤ s.reconnect_delay ∧ s.reconnect_delay ≤ 60 ∧ s.max_reconnect_delay = 60

/-- Helper lemma: from a state with delay 1 and maximum 60, the delay after
k consecutive failed attempts is min (2 to the k) 60, and the maximum is
unchanged. -/
theorem stateAfterFailures_delay (s : MQTTPublisher)
    (hmax : s.max_reconnect_delay = 60) (hd : s.reconnect_delay = 1) :
    ∀ k, (stateAfterFailures s k).reconnect_delay = min (2 ^ k) 60 ∧
      (stateAfterFailures s k).max_reconnect_delay = 60 := by
  intro k
  induction k with
  | zero =>
    refine ⟨?_, hmax⟩
    simp [stateAfterFailures, hd]
  | succ n ih =>
    obtain ⟨ih1, ih2⟩ := ih
    constructor
    · show min ((stateAfterFailures s n).reconnect_delay * 2)
        (stateAfterFailures s n).max_reconnect_delay = min (2 ^ (n + 1)) 60
      rw [ih1, ih2, pow_succ]
      generalize 2 ^ n = a
      omega
    · exact ih2

/-- Helper lemma: every connection-lifecycle event preserves the backoff
invariant. -/
theorem stepConn_preserves_inv (s : MQTTPublisher) (e : ConnEvent)
    (h : DelayInv s) : DelayInv (stepConn s e) := by
  obtain ⟨h1, h2, h3⟩ := h
  cases e with
  | connAck rc =>
    by_cases hrc : rc = 0 <;>
      simp [stepConn, on_connect, hrc, DelayInv, h1, h2, h3]
  | disconn =>
    exact ⟨h1, h2, h3⟩
  | attemptFailed =>
    refine ⟨?_, ?_, h3⟩
    · show 1 ≤ min (s.reconnect_delay * 2) s.max_reconnect_delay
      omega
    · show min (s.reconnect_delay * 2) s.max_reconnect_delay ≤ 60
      rw [h3]
      omega

/-- Helper lemma: the backoff invariant holds after any event sequence from
a state satisfying it. -/
theorem runConnEvents_inv (evs : List ConnEvent) (s : MQTTPublisher)
    (h : DelayInv s) : DelayInv (runConnEvents s evs) := by
  induction evs generalizing s with
  | nil => exact h
  | cons e rest ih =>
    show DelayInv (List.foldl stepConn (stepConn s e) rest)
    exact ih (stepConn s e) (stepConn_preserves_inv s e h)

/-- Helper lemma: a line with no occurrence of the marker produces no
regex match. -/
theorem reSearch_none_of_no_marker (l : List Char)
    (h : hasMarker l = false) : reSearchToName l = none := by
  induction l with
  | nil => rfl
  | cons c cs ih =>
    have h2 : markerHere (c :: cs) = false ∧ hasMarker cs = false := by
      have := h
      rw [hasMarker] at this
      exact Bool.or_eq_false_iff.mp this
    rw [reSearchToName, markerMatchAt, h2.1]
    simpa using ih h2.2



/-- C1: the claim says the message handler invokes the alert callback exactly
once when the configured key maps to the configured value, and zero times with
no error otherwise.  found-him.py and nanomq_client.py behave exactly so, but
mqtt_clients/paho_client.py never imports json, so on every message its
on_message raises NameError out of the handler and the callback fires zero
times, even on a perfectly matching JSON object: at the matching payload the
paho handler yields zero callback invocations and an escaping NameError,
while the found-him and nanomq handlers yield exactly one invocation and no
error, and both yield zero invocations and no error when the value differs or
the key is absent. -/
theorem paho_handler_raises_on_matching_payload :
    pahoOnMessage "desktop" "target" true
      (some [("desktop", JsonVal.str "target"),
             ("timestamp", JsonVal.str "2025-01-28T00:00:00")]) =
      { bellCalls := 0, raised := some PyExc.nameError } ∧
    foundHimOnMessage "desktop" "target" true
      (some [("desktop", JsonVal.str "target"),
             ("timestamp", JsonVal.str "2025-01-28T00:00:00")]) =
      { bellCalls := 1, raised := none } ∧
    nanomqOnMessage "desktop" "target" true
      (some [("desktop", JsonVal.str "target"),
             ("timestamp", JsonVal.str "2025-01-28T00:00:00")]) =
      { bellCalls := 1, raised := none } ∧
    foundHimOnMessage "desktop" "target" true
      (some [("desktop", JsonVal.str "other")]) =
      { bellCalls := 0, raised := none } ∧
    foundHimOnMessage "desktop" "target" true
      (some [("other_key", JsonVal.str "target")]) =
      { bellCalls := 0, raised := none } ∧
    nanomqOnMessage "desktop" "target" true
      (some [("desktop", JsonVal.str "other")]) =
      { bellCalls := 0, raised := none } := by
  decide

/-- C3: the claim says an undecodable payload raises nothing out of the
handler and never fires the callback.  found-him.py and nanomq_client.py
catch json.JSONDecodeError and only log, but in mqtt_clients/paho_client.py
the name json is unresolved, so json.loads raises NameError and the except
clause that mentions json.JSONDecodeError raises NameError again, which
escapes the handler: at an undecodable payload the paho handler lets a
NameError escape while the other two handlers swallow the decode failure
with zero callback invocations. -/
theorem paho_handler_raises_on_invalid_json :
    pahoOnMessage "current_desktop" "target" true none =
      { bellCalls := 0, raised := some PyExc.nameError } ∧
    foundHimOnMessage "current_desktop" "target" true none =
      { bellCalls := 0, raised := none } ∧
    nanomqOnMessage "current_desktop" "target" true none =
      { bellCalls := 0, raised := none } := by
  decide

/-- C2: from any state whose maximum delay is the constructed 60, right after
a successful CONNACK (which resets the delay to 1), the delay slept on the
Nth consecutive failed attempt equals min (1 times 2 to the (N-1)) 60, and the
reset itself sets the delay to the initial value 1. -/
theorem backoff_nth_delay (s : MQTTPublisher)
    (hmax : s.max_reconnect_delay = 60) (N : Nat) (_hN : 1 ≤ N) :
    (failedAttempt (stateAfterFailures (on_connect s 0) (N - 1))).1 =
      min (1 * 2 ^ (N - 1)) 60 ∧
    (on_connect s 0).reconnect_delay = 1 := by
  have hmax2 : (on_connect s 0).max_reconnect_delay = 60 := by
    simpa [on_connect] using hmax
  have hd : (on_connect s 0).reconnect_delay = 1 := by
    simp [on_connect]
  have h := stateAfterFailures_delay (on_connect s 0) hmax2 hd (N - 1)
  refine ⟨?_, hd⟩
  show (stateAfterFailures (on_connect s 0) (N - 1)).reconnect_delay =
    min (1 * 2 ^ (N - 1)) 60
  rw [h.1, one_mul]

/-- Witness for backoff_nth_delay: from the freshly constructed publisher,
the 7th failure sleeps min (2 to the 6) 60 = 60 seconds. -/
theorem backoff_nth_delay_witness :
    (initPublisher "vault.local" 1883 "synergy").max_reconnect_delay = 60 ∧
    1 ≤ 7 ∧
    (failedAttempt (stateAfterFailures
        (on_connect (initPublisher "vault.local" 1883 "synergy") 0) (7 - 1))).1 =
      min (1 * 2 ^ (7 - 1)) 60 ∧
    (on_connect (initPublisher "vault.local" 1883 "synergy") 0).reconnect_delay = 1 :=
  ⟨rfl, by decide,
   backoff_nth_delay (initPublisher "vault.local" 1883 "synergy") rfl 7 (by decide)⟩

/-- C4: the per-event publish retry loop of process_logs makes at most 3
publish attempts; when the first two attempts fail and the third succeeds,
exactly the two inter-attempt waits 2 seconds and 4 seconds are slept and the
loop ends published; after three consecutive failures the event is dropped
with the same two waits, no third wait, and the loop ends unpublished. -/
theorem publish_retry_ladder (outcome : Nat → Bool)
    (h0 : outcome 0 = false) (h1 : outcome 1 = false)
    (h2 : outcome 2 = true) :
    publishRetryLoop outcome =
      { attempts := 3, waits := [2, 4], published := true } ∧
    (∀ g : Nat → Bool, (publishRetryLoop g).attempts ≤ 3) ∧
    (∀ g : Nat → Bool, g 0 = false → g 1 = false → g 2 = false →
      publishRetryLoop g =
        { attempts := 3, waits := [2, 4], published := false }) := by
  refine ⟨?_, ?_, ?_⟩
  · simp [publishRetryLoop, publishRetryGo, h0, h1, h2]
  · intro g
    cases hg0 : g 0 <;> cases hg1 : g 1 <;> cases hg2 : g 2 <;>
      simp [publishRetryLoop, publishRetryGo, hg0, hg1, hg2]
  · intro g hg0 hg1 hg2
    simp [publishRetryLoop, publishRetryGo, hg0, hg1, hg2]

/-- Witness for publish_retry_ladder at the outcome function that fails the
first two attempts and succeeds on the third. -/
theorem publish_retry_ladder_witness :
    (fun n => decide (n = 2)) 0 = false ∧
    (fun n => decide (n = 2)) 1 = false ∧
    (fun n => decide (n = 2)) 2 = true ∧
    publishRetryLoop (fun n => decide (n = 2)) =
      { attempts := 3, waits := [2, 4], published := true } :=
  ⟨by decide, by decide, by decide,
   (publish_retry_ladder (fun n => decide (n = 2))
     (by decide) (by decide) (by decide)).1⟩

/-- C5 counterexample: connect_with_retry called while already connected
re-checks the while guard, skips the loop body, and falls off the end of the
function, so Python returns None, not True: at this concrete state the call
returns immediately with the value None, which differs from True. -/
theorem connect_with_retry_none_when_connected :
    connect_with_retry (fun _ => false) 1 0
      { broker_address := "vault.local", port := 1883, topic := "synergy",
        connected := true, reconnect_delay := 1, max_reconnect_delay := 60 } =
      some (none,
        { broker_address := "vault.local", port := 1883, topic := "synergy",
          connected := true, reconnect_delay := 1,
          max_reconnect_delay := 60 }) ∧
    (none : Option Bool) ≠ some true := by
  decide

/-- C5 amended: whenever connect_with_retry returns from a call made while
not connected, the connected flag is True and the Python return value is
True; it never returns a failure value.  (Called while already connected it
instead returns None immediately, see the counterexample.) -/
theorem connect_with_retry_returns_success (ack : Nat → Bool)
    (fuel i : Nat) (s : MQTTPublisher) (hc : s.connected = false)
    (r : Option Bool) (s2 : MQTTPublisher)
    (hret : connect_with_retry ack fuel i s = some (r, s2)) :
    r = some true ∧ s2.connected = true := by
  induction fuel generalizing i s with
  | zero =>
    rw [connect_with_retry, hc] at hret
    simp at hret
  | succ n ih =>
    rw [connect_with_retry, hc] at hret
    simp only [Bool.false_eq_true, if_false] at hret
    by_cases ha : ack i
    · rw [if_pos ha] at hret
      simp only [Option.some.injEq, Prod.mk.injEq] at hret
      obtain ⟨hr, hs⟩ := hret
      subst hr
      subst hs
      exact ⟨rfl, by simp [on_connect]⟩
    · rw [if_neg ha] at hret
      have hc2 : ((failedAttempt s).2).connected = false := hc
      exact ih (i + 1) (failedAttempt s).2 hc2 hret

/-- Witness for connect_with_retry_returns_success: one attempt that is
acknowledged immediately, starting from the freshly constructed publisher. -/
theorem connect_with_retry_returns_success_witness :
    (initPublisher "vault.local" 1883 "synergy").connected = false ∧
    (some true : Option Bool) = some true ∧
    (on_connect (initPublisher "vault.local" 1883 "synergy") 0).connected = true :=
  ⟨rfl,
   (connect_with_retry_returns_success (fun _ => true) 1 0
     (initPublisher "vault.local" 1883 "synergy") rfl (some true)
     (on_connect (initPublisher "vault.local" 1883 "synergy") 0)
     (by decide)).1,
   (connect_with_retry_returns_success (fun _ => true) 1 0
     (initPublisher "vault.local" 1883 "synergy") rfl (some true)
     (on_connect (initPublisher "vault.local" 1883 "synergy") 0)
     (by decide)).2⟩

/-- C6: for every client_type outside the registered set, both factory
methods return the ValueError immediately, with an empty effect trace: no
backend object is constructed and no connection is attempted. -/
theorem factory_rejects_unknown_client (client_type : String)
    (h : SUPPORTED_CLIENTS.contains client_type = false)
    (broker : String) (port : Nat) (topic key value : String)
    (hasBell : Bool) :
    create_publisher client_type broker port topic =
      (Except.error ("Unsupported client type: " ++ client_type), []) ∧
    create_subscriber client_type broker port topic key value hasBell =
      (Except.error ("Unsupported client type: " ++ client_type), []) := by
  have h2 : ¬client_type ∈ SUPPORTED_CLIENTS := by simpa using h
  constructor
  · simp [create_publisher, h, h2]
  · simp [create_subscriber, h, h2]

/-- Witness for factory_rejects_unknown_client at the unregistered name
used by the specification. -/
theorem factory_rejects_unknown_client_witness :
    SUPPORTED_CLIENTS.contains "unsupported-name" = false ∧
    create_publisher "unsupported-name" "vault.local" 1883 "synergy" =
      (Except.error "Unsupported client type: unsupported-name", []) ∧
    create_subscriber "unsupported-name" "vault.local" 1883 "synergy"
        "current_desktop" "target" true =
      (Except.error "Unsupported client type: unsupported-name", []) :=
  ⟨by decide,
   factory_rejects_unknown_client "unsupported-name" (by decide)
     "vault.local" 1883 "synergy" "current_desktop" "target" true⟩

/-- C7: in each supervision-loop iteration, the nanomq loop forces
connect_with_retry exactly when the elapsed time since last_message_time
exceeds 120 seconds and the backend reports not-connected, and never while
the backend reports connected; the monitor_connection loop of found-him.py
and paho_client.py forces it whenever the connected flag is false (which in
particular covers the stale-and-disconnected case) and never while it is
true.  So neither loop ever reconnects while the backend reports connected
and traffic is recent. -/
theorem supervision_reconnect_policy (now last : Nat) (bc c : Bool) :
    (120 < now - last → bc = false →
      nanomqSupervisionStep now last bc = true) ∧
    (bc = true → nanomqSupervisionStep now last bc = false) ∧
    (now - last ≤ 120 → nanomqSupervisionStep now last bc = false) ∧
    (c = false → monitorConnectionStep c = true) ∧
    (c = true → monitorConnectionStep c = false) := by
  refine ⟨?_, ?_, ?_, ?_, ?_⟩
  · intro hstale hbc
    simp [nanomqSupervisionStep, hstale, hbc]
  · intro hbc
    simp [nanomqSupervisionStep, hbc]
  · intro hfresh
    simp [nanomqSupervisionStep, Nat.not_lt.mpr hfresh]
  · intro hcf
    simp [monitorConnectionStep, hcf]
  · intro hct
    simp [monitorConnectionStep, hct]

/-- Witness for supervision_reconnect_policy: 200 seconds of silence with a
dead backend forces reconnection in both loop bodies; a connected backend
forces none. -/
theorem supervision_reconnect_policy_witness :
    nanomqSupervisionStep 200 0 false = true ∧
    nanomqSupervisionStep 200 0 true = false ∧
    monitorConnectionStep false = true ∧
    monitorConnectionStep true = false :=
  ⟨(supervision_reconnect_policy 200 0 false false).1 (by decide) rfl,
   (supervision_reconnect_policy 200 0 true true).2.1 rfl,
   (supervision_reconnect_policy 200 0 false false).2.2.2.1 rfl,
   (supervision_reconnect_policy 200 0 true true).2.2.2.2 rfl⟩

/-- C8: the extraction applied to the line of the specification yields the
event with desktop name desktop1 (the text after the marker truncated at the
first hyphen), and any line that contains no marker yields no event (the
extraction is a total function, so no error is possible). -/
theorem event_extraction_contract (line : String)
    (h : hasMarker line.toList = false) :
    extractEvent "switched to \"desktop1-" =
      some { current_desktop := "desktop1" } ∧
    extractEvent line = none := by
  refine ⟨by decide, ?_⟩
  unfold extractEvent
  rw [reSearch_none_of_no_marker line.toList h]

/-- Witness for event_extraction_contract on a marker-free line. -/
theorem event_extraction_contract_witness :
    hasMarker ("hello world").toList = false ∧
    extractEvent "switched to \"desktop1-" =
      some { current_desktop := "desktop1" } ∧
    extractEvent "hello world" = none :=
  ⟨by decide, event_extraction_contract "hello world" (by decide)⟩

/-- C9: starting from the constructed publisher, after any sequence of
connection-lifecycle events (CONNACK callbacks with any reason code,
disconnect callbacks, failed attempts) the backoff delay lies in the closed
interval from 1 to 60, and one further failed attempt never decreases it, so
the delay is monotonically non-decreasing across consecutive failed attempts
between successes. -/
theorem backoff_delay_invariant (broker : String) (port : Nat)
    (topic : String) (evs : List ConnEvent) :
    (1 ≤ (runConnEvents (initPublisher broker port topic) evs).reconnect_delay ∧
     (runConnEvents (initPublisher broker port topic) evs).reconnect_delay ≤ 60) ∧
    (runConnEvents (initPublisher broker port topic) evs).reconnect_delay ≤
      (stepConn (runConnEvents (initPublisher broker port topic) evs)
        ConnEvent.attemptFailed).reconnect_delay := by
  have hinit : DelayInv (initPublisher broker port topic) := by
    refine ⟨?_, ?_, rfl⟩ <;> simp [initPublisher]
  obtain ⟨h1, h2, h3⟩ :=
    runConnEvents_inv evs (initPublisher broker port topic) hinit
  refine ⟨⟨h1, h2⟩, ?_⟩
  show (runConnEvents (initPublisher broker port topic) evs).reconnect_delay ≤
    min ((runConnEvents (initPublisher broker port topic) evs).reconnect_delay * 2)
      (runConnEvents (initPublisher broker port topic) evs).max_reconnect_delay
  rw [h3]
  omega

/-- Witness for backoff_delay_invariant at a short concrete event history:
a failure, a rejected CONNACK, another failure. -/
theorem backoff_delay_invariant_witness :
    (1 ≤ (runConnEvents (initPublisher "vault.local" 1883 "synergy")
        [ConnEvent.attemptFailed, ConnEvent.connAck 5,
         ConnEvent.attemptFailed]).reconnect_delay ∧
     (runConnEvents (initPublisher "vault.local" 1883 "synergy")
        [ConnEvent.attemptFailed, ConnEvent.connAck 5,
         ConnEvent.attemptFailed]).reconnect_delay ≤ 60) ∧
    (runConnEvents (initPublisher "vault.local" 1883 "synergy")
        [ConnEvent.attemptFailed, ConnEvent.connAck 5,
         ConnEvent.attemptFailed]).reconnect_delay ≤
      (stepConn (runConnEvents (initPublisher "vault.local" 1883 "synergy")
          [ConnEvent.attemptFailed, ConnEvent.connAck 5,
           ConnEvent.attemptFailed])
        ConnEvent.attemptFailed).reconnect_delay :=
  backoff_delay_invariant "vault.local" 1883 "synergy"
    [ConnEvent.attemptFailed, ConnEvent.connAck 5, ConnEvent.attemptFailed]

/-- C10: the registered backend set is exactly the one-element list paho, and
it is never mutated: create_publisher rejects every other name with an empty
effect trace (in particular nanomq, even though the NanoMQ publisher class is
constructible in the codebase when its bindings are available), and
get_supported_clients allocates a fresh copy at a different heap address, so
mutating the returned list leaves the cell holding SUPPORTED_CLIENTS
unchanged. -/
theorem factory_registry_frozen (t b tp : String) (p : Nat)
    (hne : t ≠ "paho") (v : List String) :
    SUPPORTED_CLIENTS = ["paho"] ∧
    (create_publisher t b p tp).2 = [] ∧
    (create_publisher t b p tp).1 =
      Except.error ("Unsupported client type: " ++ t) ∧
    (create_publisher "nanomq" "vault.local" 1883 "synergy").1 =
      Except.error "Unsupported client type: nanomq" ∧
    nanomqPublisherInit true "vault.local" 1883 "synergy" =
      Except.ok (initPublisher "vault.local" 1883 "synergy") ∧
    (get_supported_clients factoryInitStore).2 ≠ supportedAddr ∧
    listAt (get_supported_clients factoryInitStore).1
      (get_supported_clients factoryInitStore).2 = ["paho"] ∧
    listAt (get_supported_clients factoryInitStore).1 supportedAddr =
      ["paho"] ∧
    listAt (setList (get_supported_clients factoryInitStore).1
        (get_supported_clients factoryInitStore).2 v) supportedAddr =
      ["paho"] := by
  have hcontains : SUPPORTED_CLIENTS.contains t = false := by
    simp [SUPPORTED_CLIENTS, hne]
  have hmem : ¬t ∈ SUPPORTED_CLIENTS := by simpa using hcontains
  refine ⟨rfl, ?_, ?_, rfl, rfl, by decide, by decide, by decide, ?_⟩
  · simp [create_publisher, hcontains, hmem]
  · simp [create_publisher, hcontains, hmem]
  · show listAt (setList { cells := [["paho"], ["paho"]] } 1 v) 0 = ["paho"]
    rfl

/-- Witness for factory_registry_frozen at the name nanomq and a mutation
that empties the returned copy. -/
theorem factory_registry_frozen_witness :
    ("nanomq" : String) ≠ "paho" ∧
    (create_publisher "nanomq" "vault.local" 1883 "synergy").2 = [] ∧
    listAt (setList (get_supported_clients factoryInitStore).1
        (get_supported_clients factoryInitStore).2 []) supportedAddr =
      ["paho"] :=
  ⟨by decide,
   (factory_registry_frozen "nanomq" "vault.local" "synergy" 1883
     (by decide) []).2.1,
   (factory_registry_frozen "nanomq" "vault.local" "synergy" 1883
     (by decide) []).2.2.2.2.2.2.2.2⟩
